import Mathlib

/-!
Verification development for the QanYi-DAW playback scheduling and transport
core.  The JavaScript sources (src/core/AudioClip.js, src/core/Track.js,
src/core/AudioEngine.js, src/ui/TrackList.js, src/ui/Timeline.js,
src/ui/Toolbar.js) are shallowly embedded below.  JavaScript numbers are
modelled as exact rationals (ℚ); the IEEE-754 NaN value, where it matters
(`setTempo`), is modelled explicitly by the `JSNum` type.  Web-Audio side
effects are modelled as data: a track's `gainNode` is an `Option ℚ` holding
the value last written to `gainNode.gain.value` (`none` = node not yet
created), scheduled `AudioBufferSourceNode.start(when, offset, duration)`
calls become `PlaybackCommand` values collected in `activeSources`, and the
`onTimeUpdate` / `onPlayStateChange` callback invocations are recorded in an
event list.  The requestAnimationFrame handle and the asynchronous
decode/fetch paths carry no scheduling semantics and are not modelled; the
one-time AudioContext activation gate is the `contextReady` flag.
-/

set_option maxRecDepth 8000

/-- JavaScript `x || fallback` for a number already known to be defined:
falsy numbers are `0` (and `-0`/`NaN`, the latter not arising here), so the
fallback is taken exactly when the value is `0`. -/
def jsOrQ (x fallback : ℚ) : ℚ := if x = 0 then fallback else x

/-- JavaScript `x || fallback` for a string: the empty string is falsy. -/
def jsOrS (x fallback : String) : String := if x = "" then fallback else x

/-- JavaScript `Math.round`: round half toward positive infinity. -/
def jsRound (x : ℚ) : ℤ := ⌊x + 1/2⌋

/-- Truncation toward zero, the rounding JavaScript's `%` applies to the
quotient. -/
def jsTrunc (x : ℚ) : ℤ := if x < 0 then ⌈x⌉ else ⌊x⌋

/-- JavaScript remainder `a % b` (sign follows the dividend). -/
def jsMod (a b : ℚ) : ℚ := a - b * (jsTrunc (a / b) : ℚ)

/-- JavaScript `String.prototype.padStart(n, c)`. -/
def padStart (s : String) (n : ℕ) (c : Char) : String :=
  ⟨List.replicate (n - s.length) c ++ s.data⟩

/-- A JavaScript number that may be NaN (e.g. the result of `parseInt` on a
non-numeric string, or any arithmetic involving NaN). -/
inductive JSNum where
  | nan : JSNum
  | num (q : ℚ) : JSNum
deriving DecidableEq, Repr

/-- JavaScript `Math.min` on two arguments: NaN-propagating. -/
def jsMinN (a b : JSNum) : JSNum :=
  match a, b with
  | .nan, _ => .nan
  | _, .nan => .nan
  | .num x, .num y => .num (min x y)

/-- JavaScript `Math.max` on two arguments: NaN-propagating. -/
def jsMaxN (a b : JSNum) : JSNum :=
  match a, b with
  | .nan, _ => .nan
  | _, .nan => .nan
  | .num x, .num y => .num (max x y)

/-- A decoded audio buffer, identified by reference; clips hold shared
read-only references to these.  Only the fields the core reads are kept:
the identity and `duration` (seconds). -/
structure AudioBufferRef where
  refId : ℕ
  duration : ℚ
deriving DecidableEq, Repr

/-- AudioClip state (src/core/AudioClip.js).  `audioBuffer` is `none` when
the constructor was called without a buffer.  The generated string id is
modelled as a numeric identity. -/
structure AudioClip where
  id : ℕ
  name : String
  audioBuffer : Option AudioBufferRef
  trackId : Option String
  startTime : ℚ
  offset : ℚ
  duration : ℚ
  gain : ℚ
  selected : Bool
deriving DecidableEq, Repr

/-- Constructor options object for `new AudioClip(options)`; absent fields
are the falsy defaults (`undefined` behaves like `""`/`0` under `||`). -/
structure ClipOptions where
  audioBuffer : Option AudioBufferRef
  name : String
  startTime : ℚ
  offset : ℚ
  duration : ℚ
deriving DecidableEq, Repr

/-- `new AudioClip(options)` (AudioClip.js constructor).  `newId` stands for
the freshly generated `clip_${Date.now()}_${++clipCounter}` identity. -/
def AudioClip.create (newId : ℕ) (options : ClipOptions) : AudioClip :=
  { id := newId
    name := jsOrS options.name "Audio Clip"
    audioBuffer := options.audioBuffer
    trackId := none
    startTime := jsOrQ options.startTime 0
    offset := jsOrQ options.offset 0
    duration := jsOrQ options.duration
      (match options.audioBuffer with
       | some b => b.duration
       | none => 0)
    gain := 1
    selected := false }

/-- `getOriginalDuration()`. -/
def AudioClip.getOriginalDuration (c : AudioClip) : ℚ :=
  match c.audioBuffer with
  | some b => b.duration
  | none => 0

/-- `setStartTime(time)`: clamps to ≥ 0. -/
def AudioClip.setStartTime (c : AudioClip) (time : ℚ) : AudioClip :=
  { c with startTime := max 0 time }

/-- `move(deltaTime)`. -/
def AudioClip.move (c : AudioClip) (deltaTime : ℚ) : AudioClip :=
  c.setStartTime (c.startTime + deltaTime)

/-- `setDuration(duration)`: clamps to `[0.1, originalDuration - offset]`. -/
def AudioClip.setDuration (c : AudioClip) (duration : ℚ) : AudioClip :=
  { c with duration := max (1/10) (min (c.getOriginalDuration - c.offset) duration) }

/-- `clone()`: a new identity constructed from the listed fields of the
original; everything else (trackId, gain, selected) comes from the
constructor defaults. -/
def AudioClip.clone (c : AudioClip) (newId : ℕ) : AudioClip :=
  AudioClip.create newId
    { audioBuffer := c.audioBuffer
      name := c.name
      startTime := c.startTime
      offset := c.offset
      duration := c.duration }

/-- Track state (src/core/Track.js).  `gainNode` models the Web Audio
GainNode created by `AudioEngine.addTrack`: `none` before it is wired,
`some g` once created with `g` the value last assigned to
`gainNode.gain.value`. -/
structure Track where
  id : String
  name : String
  color : String
  volume : ℚ
  pan : ℚ
  muted : Bool
  solo : Bool
  clips : List AudioClip
  gainNode : Option ℚ
deriving DecidableEq, Repr

/-- `setVolume(volume)` (Track.js lines 57-62): clamp to [0,1]; if a gain
node is bound, push `muted ? 0 : volume` to it. -/
def Track.setVolume (t : Track) (volume : ℚ) : Track :=
  let t1 := { t with volume := max 0 (min 1 volume) }
  if t1.gainNode.isSome then
    { t1 with gainNode := some (if t1.muted then 0 else t1.volume) }
  else t1

/-- `setMuted(muted)` (Track.js lines 68-73): if a gain node is bound, push
`muted ? 0 : volume` to it. -/
def Track.setMuted (t : Track) (muted : Bool) : Track :=
  let t1 := { t with muted := muted }
  if t1.gainNode.isSome then
    { t1 with gainNode := some (if t1.muted then 0 else t1.volume) }
  else t1

/-- `toggleMute()`. -/
def Track.toggleMute (t : Track) : Track := t.setMuted (!t.muted)

/-- `setSolo(solo)`. -/
def Track.setSolo (t : Track) (solo : Bool) : Track := { t with solo := solo }

/-- `toggleSolo()`. -/
def Track.toggleSolo (t : Track) : Track := t.setSolo (!t.solo)

/-- `sortClips()` (Track.js lines 130-132): `clips.sort((a,b) =>
a.startTime - b.startTime)`, i.e. sort ascending by `startTime`. -/
def Track.sortClips (t : Track) : Track :=
  { t with clips := t.clips.mergeSort (fun a b => decide (a.startTime ≤ b.startTime)) }

/-- `addClip(clip)` (Track.js lines 101-105): set `clip.trackId = this.id`,
push, re-sort. -/
def Track.addClip (t : Track) (clip : AudioClip) : Track :=
  let clip' := { clip with trackId := some t.id }
  Track.sortClips { t with clips := t.clips ++ [clip'] }

/-- `removeClip(clipId)`: splice out the first clip with that id, no-op if
absent. -/
def Track.removeClip (t : Track) (clipId : ℕ) : Track :=
  match t.clips.findIdx? (fun c => c.id = clipId) with
  | some i => { t with clips := t.clips.eraseIdx i }
  | none => t

/-- `getDuration()`: max clip end, 0 when empty. -/
def Track.getDuration (t : Track) : ℚ :=
  t.clips.foldl (fun maxEnd clip => max maxEnd (clip.startTime + clip.duration)) 0

/-- One issued `source.start(when, offset, duration)` call
(AudioEngine.schedulePlayback): the sink is the track's gain node, the
buffer the clip's shared buffer. -/
structure PlaybackCommand where
  trackId : String
  buffer : Option AudioBufferRef
  startWhen : ℚ
  offset : ℚ
  duration : ℚ
deriving DecidableEq, Repr

/-- An observed callback invocation of the engine. -/
inductive EngineEvent where
  | timeUpdate (t : ℚ) : EngineEvent
  | playState (s : String) : EngineEvent
deriving DecidableEq, Repr

/-- AudioEngine state (src/core/AudioEngine.js constructor).
`contextReady` models `audioContext !== null`; `masterGain` the master
GainNode's gain value; `hasTimeUpdate`/`hasPlayStateChange` whether the
`onTimeUpdate`/`onPlayStateChange` callback fields are set; `events` the
record of callback invocations. -/
structure AudioEngine where
  contextReady : Bool
  masterGain : Option ℚ
  isPlaying : Bool
  isPaused : Bool
  startTime : ℚ
  pauseTime : ℚ
  tempo : ℚ
  currentTime : ℚ
  tracks : List Track
  activeSources : List PlaybackCommand
  hasTimeUpdate : Bool
  hasPlayStateChange : Bool
  events : List EngineEvent
deriving DecidableEq, Repr

/-- `if (this.onTimeUpdate) this.onTimeUpdate(t)`. -/
def AudioEngine.emitTimeUpdate (e : AudioEngine) (t : ℚ) : AudioEngine :=
  if e.hasTimeUpdate then { e with events := e.events ++ [EngineEvent.timeUpdate t] } else e

/-- `if (this.onPlayStateChange) this.onPlayStateChange(s)`. -/
def AudioEngine.emitPlayState (e : AudioEngine) (s : String) : AudioEngine :=
  if e.hasPlayStateChange then { e with events := e.events ++ [EngineEvent.playState s] } else e

/-- `init()`: create the AudioContext and master gain (0.8) once;
idempotent. -/
def AudioEngine.init (e : AudioEngine) : AudioEngine :=
  if e.contextReady then e else { e with contextReady := true, masterGain := some (4/5) }

/-- `stopAllSources()`: `source.stop()` on every active source (errors from
already-stopped sources swallowed) and clear the list. -/
def AudioEngine.stopAllSources (e : AudioEngine) : AudioEngine :=
  { e with activeSources := [] }

/-- The command list built by the two nested `forEach` loops of
`schedulePlayback` (AudioEngine.js lines 190-220) for the given track list,
logical position `currentPlayTime` and device clock reading `now`
(`this.audioContext.currentTime`).  Muted tracks are skipped; clips fully in
the past are skipped; a non-positive computed duration is skipped. -/
def scheduleCommands (tracks : List Track) (currentPlayTime now : ℚ) : List PlaybackCommand :=
  tracks.flatMap (fun track =>
    if track.muted then [] else
      track.clips.filterMap (fun clip =>
        if clip.startTime + clip.duration < currentPlayTime then none
        else
          let whenT := if clip.startTime ≥ currentPlayTime
            then now + (clip.startTime - currentPlayTime) else now
          let offs := if clip.startTime ≥ currentPlayTime
            then jsOrQ clip.offset 0
            else jsOrQ clip.offset 0 + (currentPlayTime - clip.startTime)
          let dur := clip.duration - (offs - jsOrQ clip.offset 0)
          if 0 < dur then
            some { trackId := track.id, buffer := clip.audioBuffer
                   startWhen := whenT, offset := offs, duration := dur }
          else none))

/-- `schedulePlayback()` (AudioEngine.js lines 185-221): cancel all pending
sources, recompute `currentPlayTime = audioContext.currentTime - startTime`,
and issue fresh commands. -/
def AudioEngine.schedulePlayback (e : AudioEngine) (now : ℚ) : AudioEngine :=
  let e1 := e.stopAllSources
  { e1 with activeSources := scheduleCommands e1.tracks (now - e1.startTime) now }

/-- The synchronous first run of the `update` closure in
`startTimeUpdate()`: while playing, read the clock, set `currentTime`,
notify. -/
def AudioEngine.startTimeUpdateTick (e : AudioEngine) (now : ℚ) : AudioEngine :=
  if e.isPlaying && !e.isPaused then
    let e1 := { e with currentTime := now - e.startTime }
    e1.emitTimeUpdate e1.currentTime
  else e

/-- `play()` (AudioEngine.js lines 80-101), at device clock reading `now`.
No-op when already playing and not paused; otherwise restore the epoch from
the pause position (or the cursor), schedule, start the update loop, and
notify `'playing'`. -/
def AudioEngine.play (e : AudioEngine) (now : ℚ) : AudioEngine :=
  if e.isPlaying && !e.isPaused then e else
  let e1 := e.init
  let e2 :=
    if e1.isPaused then { e1 with startTime := now - e1.pauseTime, isPaused := false }
    else { e1 with startTime := now - e1.currentTime }
  let e3 := { e2 with isPlaying := true }
  let e4 := e3.schedulePlayback now
  let e5 := e4.startTimeUpdateTick now
  e5.emitPlayState "playing"

/-- `pause()` (AudioEngine.js lines 106-117), at device clock reading `now`.
Only valid from playing; freezes `pauseTime`, cancels all sources, stops the
loop, notifies `'paused'`. -/
def AudioEngine.pause (e : AudioEngine) (now : ℚ) : AudioEngine :=
  if !e.isPlaying || e.isPaused then e else
  let e1 := { e with isPaused := true, pauseTime := now - e.startTime }
  let e2 := e1.stopAllSources
  e2.emitPlayState "paused"

/-- `stop()` (AudioEngine.js lines 122-137): from any state, reset flags and
position, cancel sources, notify position 0 and state `'stopped'`. -/
def AudioEngine.stop (e : AudioEngine) : AudioEngine :=
  let e1 := { e with isPlaying := false, isPaused := false, currentTime := 0, pauseTime := 0 }
  let e2 := e1.stopAllSources
  let e3 := e2.emitTimeUpdate 0
  e3.emitPlayState "stopped"

/-- `seekTo(time)` (AudioEngine.js lines 143-180), at device clock reading
`now`.  With no AudioContext yet, only the cursor and pause bookkeeping
move (the async `init()` kick-off carries no synchronous state change);
otherwise the epoch is re-anchored and, if the transport was running,
playback is rescheduled from the new position. -/
def AudioEngine.seekTo (e : AudioEngine) (now : ℚ) (time : ℚ) : AudioEngine :=
  let wasPlaying := e.isPlaying && !e.isPaused
  if !e.contextReady then
    let e1 := if wasPlaying then e.stopAllSources else e
    let e2 := { e1 with currentTime := max 0 time }
    let e3 := { e2 with pauseTime := e2.currentTime }
    e3.emitTimeUpdate e3.currentTime
  else
    let e1 := if wasPlaying then e.stopAllSources else e
    let e2 := { e1 with currentTime := max 0 time }
    let e3 := { e2 with startTime := now - e2.currentTime, pauseTime := e2.currentTime }
    let e4 := e3.emitTimeUpdate e3.currentTime
    if wasPlaying then e4.schedulePlayback now else e4

/-- `setTempo(bpm)` (AudioEngine.js lines 270-272) on the numeric path:
`this.tempo = Math.max(20, Math.min(300, bpm))`. -/
def AudioEngine.setTempo (e : AudioEngine) (bpm : ℚ) : AudioEngine :=
  { e with tempo := max 20 (min 300 bpm) }

/-- The value `Math.max(20, Math.min(300, bpm))` stored by `setTempo` when
the argument may be NaN (JavaScript `Math.min`/`Math.max` propagate NaN). -/
def AudioEngine.setTempoJS (bpm : JSNum) : JSNum :=
  jsMaxN (.num 20) (jsMinN (.num 300) bpm)

/-- `setMasterVolume(volume)`: clamp to [0,1], only if the master gain
exists. -/
def AudioEngine.setMasterVolume (e : AudioEngine) (volume : ℚ) : AudioEngine :=
  match e.masterGain with
  | some _ => { e with masterGain := some (max 0 (min 1 volume)) }
  | none => e

/-- `getTrack(trackId)`. -/
def AudioEngine.getTrack (e : AudioEngine) (trackId : String) : Option Track :=
  e.tracks.find? (fun t => t.id = trackId)

/-- `formatTime(seconds)` (AudioEngine.js lines 325-334); `tempo` is the
engine's `this.tempo`.  Bars/beats are 1-based, ticks are thousandths of a
beat, rendered zero-padded as `BBB:BB:TTT`. -/
def AudioEngine.formatTime (tempo : ℚ) (seconds : ℚ) : String :=
  let beatsPerSecond := tempo / 60
  let totalBeats := seconds * beatsPerSecond
  let bars : ℤ := ⌊totalBeats / 4⌋ + 1
  let beats : ℤ := ⌊jsMod totalBeats 4⌋ + 1
  let ticks : ℤ := ⌊jsMod totalBeats 1 * 1000⌋
  padStart (toString bars) 3 '0' ++ ":" ++ padStart (toString beats) 2 '0' ++ ":"
    ++ padStart (toString ticks) 3 '0'

/-- The per-track gain written by `handleSoloLogic` in the variant of
TrackList.js at lines 165-181: with a solo active, mute wins, then solo
keeps its volume, others are silenced. -/
def TrackList.soloLogicGain (hasSolo : Bool) (track : Track) : ℚ :=
  if hasSolo then (if track.muted then 0 else if track.solo then track.volume else 0)
  else (if track.muted then 0 else track.volume)

/-- `handleSoloLogic()` (TrackList.js lines 165-181): recompute every bound
track's gain from the global solo state. -/
def TrackList.handleSoloLogic (tracks : List Track) : List Track :=
  let hasSolo := tracks.any (fun t => t.solo)
  tracks.map (fun track =>
    if track.gainNode.isSome then
      { track with gainNode := some (TrackList.soloLogicGain hasSolo track) }
    else track)

/-- The per-track gain written by `handleSoloLogic` in the other variant of
TrackList.js, at lines 367-383: with a solo active the mute flag is not
consulted (`track.solo ? track.volume : 0`). -/
def TrackList.soloLogicGainAlt (hasSolo : Bool) (track : Track) : ℚ :=
  if hasSolo then (if track.solo then track.volume else 0)
  else (if track.muted then 0 else track.volume)

/-- `handleSoloLogic()` (TrackList.js lines 367-383). -/
def TrackList.handleSoloLogicAlt (tracks : List Track) : List Track :=
  let hasSolo := tracks.any (fun t => t.solo)
  tracks.map (fun track =>
    if track.gainNode.isSome then
      { track with gainNode := some (TrackList.soloLogicGainAlt hasSolo track) }
    else track)

/-- Modelled from the spec (§4.3 MixResolver): the canonical effective-gain
rule, "mute always takes precedence over solo".  Stated from the spec's
words to compare the two source variants against. -/
def effectiveGainSpec (tracks : List Track) (track : Track) : ℚ :=
  let hasSolo := tracks.any (fun t => t.solo)
  if hasSolo then (if track.muted then 0 else if track.solo then track.volume else 0)
  else (if track.muted then 0 else track.volume)

/-- `Timeline.snapTime(time)` (Timeline.js): quantize to the grid interval
`(60 / tempo) * gridSize`. -/
def Timeline.snapTime (tempo gridSize : ℚ) (time : ℚ) : ℚ :=
  let secondsPerBeat := 60 / tempo
  let snapInterval := secondsPerBeat * gridSize
  (jsRound (time / snapInterval) : ℚ) * snapInterval

/-- `Toolbar.validateAndClampBpm(value)` (Toolbar.js): `parseInt`, reject
NaN, clamp to [20,300].  The argument is the `parseInt` result. -/
def Toolbar.validateAndClampBpm (value : JSNum) : Option ℚ :=
  match value with
  | .nan => none
  | .num bpm => some (max 20 (min 300 bpm))

/-- The engine state built by the AudioEngine constructor (lines 6-22):
no context, tempo 120, stopped at 0, no tracks, no callbacks. -/
def AudioEngine.initial : AudioEngine :=
  { contextReady := false, masterGain := none, isPlaying := false, isPaused := false
    startTime := 0, pauseTime := 0, tempo := 120, currentTime := 0
    tracks := [], activeSources := [], hasTimeUpdate := false
    hasPlayStateChange := false, events := [] }

/-- A concrete decoded buffer (10 s), shared by the sample clips below. -/
def bufA : AudioBufferRef := { refId := 0, duration := 10 }

/-- A concrete clip used by witnesses: nonzero offset, non-default gain,
selected. -/
def witClip : AudioClip :=
  { id := 1, name := "Loop", audioBuffer := some bufA, trackId := some "track_1"
    startTime := 2, offset := 1, duration := 3, gain := 1/2, selected := true }

/-- A track that is simultaneously muted and soloed, with a bound gain
node. -/
def soloMutedTrack : Track :=
  { id := "track_1", name := "Track 1", color := "#6366f1", volume := 4/5, pan := 0
    muted := true, solo := true, clips := [], gainNode := some (4/5) }

/-- The clip carried by `silencedTrack`: starts at 0, 3 s long. -/
def clipA : AudioClip :=
  { id := 0, name := "Clip A", audioBuffer := some bufA, trackId := some "track_2"
    startTime := 0, offset := 0, duration := 3, gain := 1, selected := false }

/-- An unmuted, non-solo track with zero volume holding `clipA`; with
`soloActiveTrack` also present its canonical effective gain is 0 twice
over (foreign solo active, own volume 0). -/
def silencedTrack : Track :=
  { id := "track_2", name := "Track 2", color := "#ec4899", volume := 0, pan := 0
    muted := false, solo := false, clips := [clipA], gainNode := some 0 }

/-- A soloed, unmuted track (no clips) used to silence the others. -/
def soloActiveTrack : Track :=
  { id := "track_1", name := "Track 1", color := "#6366f1", volume := 4/5, pan := 0
    muted := false, solo := true, clips := [], gainNode := some (4/5) }

/-- Engine whose track set makes `silencedTrack`'s effective gain 0. -/
def engineC3 : AudioEngine :=
  { AudioEngine.initial with
    contextReady := true, tracks := [soloActiveTrack, silencedTrack] }

/-- The mid-clip-resume scenario clip of §8: `startTime=2, offset=0,
duration=3`. -/
def clipC2 : AudioClip :=
  { id := 2, name := "Clip", audioBuffer := some bufA, trackId := some "track_1"
    startTime := 2, offset := 0, duration := 3, gain := 1, selected := false }

/-- Track holding `clipC2`. -/
def trackC2 : Track :=
  { id := "track_1", name := "Track 1", color := "#6366f1", volume := 4/5, pan := 0
    muted := false, solo := false, clips := [clipC2], gainNode := some (4/5) }

/-- Ready engine holding `trackC2`, stopped at position 0. -/
def engineC2 : AudioEngine :=
  { AudioEngine.initial with contextReady := true, tracks := [trackC2] }

/-- Ready engine holding `trackC2`, playing with epoch `startTime = 7` (so
logical position 3 at device time 10); used to instantiate the mid-clip
scheduling theorem. -/
def engineW2 : AudioEngine :=
  { AudioEngine.initial with
    contextReady := true, tracks := [trackC2], isPlaying := true, startTime := 7 }

/-- A playing engine (epoch 0) with a time-update subscriber. -/
def enginePlaying : AudioEngine :=
  { AudioEngine.initial with
    contextReady := true, isPlaying := true, hasTimeUpdate := true,
    hasPlayStateChange := true }

/-- An unmuted, non-solo track with a bound gain node, used to show the
setters ignore foreign solo state. -/
def mixOtherTrack : Track :=
  { id := "track_1", name := "Track 1", color := "#6366f1", volume := 4/5, pan := 0
    muted := false, solo := false, clips := [], gainNode := some (4/5) }

/-- A soloed track accompanying `mixOtherTrack`. -/
def mixSoloTrack : Track :=
  { id := "track_2", name := "Track 2", color := "#ec4899", volume := 1, pan := 0
    muted := false, solo := true, clips := [], gainNode := some 1 }

/-- The ten characters of `formatTime`'s output, expressed as a function of
`N = ⌊totalBeats * 1000⌋₊` (valid whenever `totalBeats ≥ 0` and
`bars ≤ 999`): bars = `N/4000 + 1` (three digits), beats =
`N/1000 % 4 + 1` (two digits, leading `'0'`), ticks = `N % 1000` (three
digits). -/
def charsOfN (N : ℕ) : List Char :=
  [Nat.digitChar ((N / 4000 + 1) / 100), Nat.digitChar ((N / 4000 + 1) / 10 % 10),
   Nat.digitChar ((N / 4000 + 1) % 10), ':',
   '0', Nat.digitChar (N / 1000 % 4 + 1), ':',
   Nat.digitChar (N % 1000 / 100), Nat.digitChar (N % 1000 / 10 % 10),
   Nat.digitChar (N % 1000 % 10)]

/-! ## Helper lemmas -/

@[simp] theorem jsOrQ_zero (x : ℚ) : jsOrQ x 0 = x := by
  unfold jsOrQ; split <;> simp_all

theorem jsOrQ_of_ne {x : ℚ} (fallback : ℚ) (h : x ≠ 0) : jsOrQ x fallback = x := by
  simp [jsOrQ, h]

theorem jsOrS_of_ne {x : String} (fallback : String) (h : x ≠ "") : jsOrS x fallback = x := by
  simp [jsOrS, h]

/-! ## Claim C6: grid snapping is idempotent -/

/-- Claim C6: for every time `t`, tempo in [20,300] and positive grid
fraction, `snap (snap t) = snap t` where `snap` rounds to the nearest
multiple of the tempo-relative interval. -/
theorem snapTime_idempotent (tempo gridSize t : ℚ)
    (h20 : 20 ≤ tempo) (h300 : tempo ≤ 300) (hg : 0 < gridSize) :
    Timeline.snapTime tempo gridSize (Timeline.snapTime tempo gridSize t)
      = Timeline.snapTime tempo gridSize t := by
  have htempo : (0 : ℚ) < tempo := by linarith
  have hipos : 0 < 60 / tempo * gridSize := by positivity
  simp only [Timeline.snapTime, jsRound]
  rw [mul_div_cancel_right₀ _ (ne_of_gt hipos), Int.floor_int_add]
  norm_num

/-- Witness for C6 at `tempo = 120`, `gridSize = 1/4`, `t = 1/3`. -/
theorem snapTime_idempotent_witness :
    ((20:ℚ) ≤ 120 ∧ (120:ℚ) ≤ 300 ∧ (0:ℚ) < 1/4)
    ∧ Timeline.snapTime 120 (1/4) (Timeline.snapTime 120 (1/4) (1/3))
        = Timeline.snapTime 120 (1/4) (1/3) :=
  ⟨⟨by norm_num, by norm_num, by norm_num⟩,
    snapTime_idempotent 120 (1/4) (1/3) (by norm_num) (by norm_num) (by norm_num)⟩

/-! ## Claim C9: addClip keeps clips sorted and assigns trackId -/

/-- Claim C9: after `addClip c` the clip list is sorted ascending by
`startTime`, is a permutation of the old list plus `c` with `trackId`
assigned, and contains the assigned clip. -/
theorem addClip_sorted_assigns (t : Track) (c : AudioClip) :
    List.Sorted (fun a b : AudioClip => a.startTime ≤ b.startTime) (t.addClip c).clips
    ∧ (t.addClip c).clips.Perm ({ c with trackId := some t.id } :: t.clips)
    ∧ { c with trackId := some t.id } ∈ (t.addClip c).clips := by
  have hsorted :
      List.Sorted (fun a b : AudioClip => a.startTime ≤ b.startTime) (t.addClip c).clips := by
    unfold Track.addClip Track.sortClips
    have h := @List.sorted_mergeSort AudioClip
      (fun a b => decide (a.startTime ≤ b.startTime))
      (fun a b c hab hbc => by
        simp only [decide_eq_true_eq] at *
        exact le_trans hab hbc)
      (fun a b => by simpa using le_total a.startTime b.startTime)
      (t.clips ++ [{ c with trackId := some t.id }])
    exact h.imp (fun hab => by simpa using hab)
  have hperm : (t.addClip c).clips.Perm ({ c with trackId := some t.id } :: t.clips) := by
    unfold Track.addClip Track.sortClips
    exact (List.mergeSort_perm _ _).trans (List.perm_append_singleton _ _)
  exact ⟨hsorted, hperm, hperm.mem_iff.mpr (List.mem_cons_self _ _)⟩

/-! ## Claim C10: clone resets gain and selection -/

/-- Claim C10: `clone` returns a clip with `gain = 1` and
`selected = false` regardless of the original's values; name, startTime,
offset, duration and the shared buffer reference carry over, with
`trackId` unset.  The hypotheses record the data-model invariants
(nonempty name, positive duration) under which the constructor's
falsy-default fallbacks are inert. -/
theorem clone_defaults (c : AudioClip) (newId : ℕ)
    (hname : c.name ≠ "") (hdur : 0 < c.duration) :
    (c.clone newId).gain = 1 ∧ (c.clone newId).selected = false
    ∧ (c.clone newId).name = c.name ∧ (c.clone newId).startTime = c.startTime
    ∧ (c.clone newId).offset = c.offset ∧ (c.clone newId).duration = c.duration
    ∧ (c.clone newId).audioBuffer = c.audioBuffer ∧ (c.clone newId).trackId = none := by
  unfold AudioClip.clone AudioClip.create
  refine ⟨rfl, rfl, jsOrS_of_ne _ hname, jsOrQ_zero _, jsOrQ_zero _, ?_, rfl, rfl⟩
  exact jsOrQ_of_ne _ (ne_of_gt hdur)

/-- Witness for C10 on a clip with `gain = 1/2` and `selected = true`. -/
theorem clone_defaults_witness :
    witClip.name ≠ "" ∧ 0 < witClip.duration
    ∧ (witClip.clone 9).gain = 1 ∧ (witClip.clone 9).selected = false :=
  ⟨by simp [witClip], by norm_num [witClip],
    (clone_defaults witClip 9 (by simp [witClip]) (by norm_num [witClip])).1,
    (clone_defaults witClip 9 (by simp [witClip]) (by norm_num [witClip])).2.1⟩

/-! ## Claim C4: setTempo clamping and the NaN path -/

/-- Claim C4 counterexample: a non-numeric (NaN) argument is not rejected:
`Math.max(20, Math.min(300, NaN))` is NaN, so the stored tempo becomes NaN
— a changed state — rather than staying at its previous numeric value
(e.g. the default 120). -/
theorem setTempo_nan_counterexample :
    AudioEngine.setTempoJS JSNum.nan = JSNum.nan ∧ JSNum.nan ≠ JSNum.num 120 :=
  ⟨rfl, fun h => JSNum.noConfusion h⟩

/-- Claim C4 (amended): numeric `bpm` is silently clamped into [20,300]
(in-range values stored unchanged); a NaN `bpm` is stored as NaN (the state
IS mutated).  Rejection of non-numeric input happens only in the Toolbar
caller, whose `validateAndClampBpm` maps NaN to `null` (so `setTempo` is
never called) and clamps numeric input. -/
theorem setTempo_clamps (e : AudioEngine) (bpm q : ℚ) :
    (e.setTempo bpm).tempo = max 20 (min 300 bpm)
    ∧ (20 ≤ (e.setTempo bpm).tempo ∧ (e.setTempo bpm).tempo ≤ 300)
    ∧ (20 ≤ bpm → bpm ≤ 300 → (e.setTempo bpm).tempo = bpm)
    ∧ AudioEngine.setTempoJS (JSNum.num q) = JSNum.num (max 20 (min 300 q))
    ∧ AudioEngine.setTempoJS JSNum.nan = JSNum.nan
    ∧ Toolbar.validateAndClampBpm JSNum.nan = none
    ∧ Toolbar.validateAndClampBpm (JSNum.num q) = some (max 20 (min 300 q)) := by
  refine ⟨rfl, ⟨le_max_left _ _, ?_⟩, ?_, rfl, rfl, rfl, rfl⟩
  · exact max_le (by norm_num) (min_le_left _ _)
  · intro hlo hhi
    simp [AudioEngine.setTempo, min_eq_right hhi, max_eq_right hlo]

/-- Witness for C4 (amended) at `bpm = 150` on the freshly constructed
engine. -/
theorem setTempo_clamps_witness :
    (20:ℚ) ≤ 150 ∧ (150:ℚ) ≤ 300 ∧ (AudioEngine.initial.setTempo 150).tempo = 150 :=
  ⟨by norm_num, by norm_num,
    (setTempo_clamps AudioEngine.initial 150 0).2.2.1 (by norm_num) (by norm_num)⟩

/-! ## Claim C1: the mute/solo gain rule as pushed by handleSoloLogic -/

/-- Claim C1 counterexample: the TrackList.js variant at lines 367-383
pushes `volume` (here 4/5) to a track that is both muted and soloed, while
the canonical rule ("mute always wins") requires 0. -/
theorem handleSoloLogicAlt_muted_solo_counterexample :
    (TrackList.handleSoloLogicAlt [soloMutedTrack]).map (fun t => t.gainNode) = [some (4/5)]
    ∧ effectiveGainSpec [soloMutedTrack] soloMutedTrack = 0
    ∧ some ((4:ℚ)/5) ≠ some (0:ℚ) := by
  refine ⟨?_, ?_, by norm_num⟩
  · simp [TrackList.handleSoloLogicAlt, TrackList.soloLogicGainAlt, soloMutedTrack]
  · simp [effectiveGainSpec, soloMutedTrack]

/-- Claim C1 (amended): the handleSoloLogic variant at TrackList.js lines
165-181 pushes exactly the canonical effective gain (mute wins, then solo
keeps volume, others 0) to every bound sink; the variant at lines 367-383
agrees except on tracks that are simultaneously muted and soloed while a
solo is active, where it ignores the mute.  The A/B/C matrix
(A unmuted+solo, B muted, C plain) resolves to `A.volume, 0, 0` under both
variants. -/
theorem handleSoloLogic_gain_rule (tracks : List Track) (t A B C : Track)
    (hA1 : A.muted = false) (hA2 : A.solo = true)
    (hB1 : B.muted = true) (hB2 : B.solo = false)
    (hC1 : C.muted = false) (hC2 : C.solo = false) :
    (TrackList.handleSoloLogic tracks).map (fun tr => tr.gainNode)
      = tracks.map (fun tr => tr.gainNode.map (fun _ => effectiveGainSpec tracks tr))
    ∧ TrackList.soloLogicGain (tracks.any (fun tr => tr.solo)) t = effectiveGainSpec tracks t
    ∧ (¬(t.muted = true ∧ t.solo = true) →
        TrackList.soloLogicGainAlt (tracks.any (fun tr => tr.solo)) t
          = effectiveGainSpec tracks t)
    ∧ (TrackList.soloLogicGain ([A, B, C].any (fun tr => tr.solo)) A = A.volume
       ∧ TrackList.soloLogicGain ([A, B, C].any (fun tr => tr.solo)) B = 0
       ∧ TrackList.soloLogicGain ([A, B, C].any (fun tr => tr.solo)) C = 0)
    ∧ (TrackList.soloLogicGainAlt ([A, B, C].any (fun tr => tr.solo)) A = A.volume
       ∧ TrackList.soloLogicGainAlt ([A, B, C].any (fun tr => tr.solo)) B = 0
       ∧ TrackList.soloLogicGainAlt ([A, B, C].any (fun tr => tr.solo)) C = 0) := by
  refine ⟨?_, rfl, ?_, ?_, ?_⟩
  · simp only [TrackList.handleSoloLogic, List.map_map]
    refine List.map_congr_left (fun tr _ => ?_)
    cases h : tr.gainNode with
    | none => simp [h]
    | some g => simp [h, TrackList.soloLogicGain, effectiveGainSpec]
  · intro hns
    unfold TrackList.soloLogicGainAlt effectiveGainSpec
    rcases hm : t.muted with _ | _ <;> rcases hs : t.solo with _ | _ <;> simp_all
  · simp [TrackList.soloLogicGain, hA1, hA2, hB1, hB2, hC1, hC2]
  · simp [TrackList.soloLogicGainAlt, hA2, hB2, hC2]

/-- Witness for C1 (amended) on concrete tracks: with `soloActiveTrack`
(unmuted, solo) and `silencedTrack` (unmuted, no solo) the alternate
variant also matches the canonical rule, and the matrix instance holds
with A := soloActiveTrack, B := soloMutedTrack-with-solo-off,
C := silencedTrack. -/
theorem handleSoloLogic_gain_rule_witness :
    (soloActiveTrack.muted = false ∧ soloActiveTrack.solo = true
     ∧ (soloMutedTrack.setSolo false).muted = true ∧ (soloMutedTrack.setSolo false).solo = false
     ∧ silencedTrack.muted = false ∧ silencedTrack.solo = false)
    ∧ TrackList.soloLogicGain
        ([soloActiveTrack, silencedTrack].any (fun tr => tr.solo)) silencedTrack
        = effectiveGainSpec [soloActiveTrack, silencedTrack] silencedTrack :=
  ⟨⟨rfl, rfl, rfl, rfl, rfl, rfl⟩,
    (handleSoloLogic_gain_rule [soloActiveTrack, silencedTrack] silencedTrack
      soloActiveTrack (soloMutedTrack.setSolo false) silencedTrack
      rfl rfl rfl rfl rfl rfl).2.1⟩

/-! ## Claim C8: what the Track setters push to the sink -/

/-- Claim C8 counterexample: with `mixSoloTrack` soloed, the canonical §4.3
resolution for the unmuted, non-solo `mixOtherTrack` is 0, yet
`setVolume(0.5)` pushes 0.5 to its sink. -/
theorem setVolume_ignores_solo_counterexample :
    (mixOtherTrack.setVolume (1/2)).gainNode = some (1/2)
    ∧ effectiveGainSpec [mixOtherTrack.setVolume (1/2), mixSoloTrack]
        (mixOtherTrack.setVolume (1/2)) = 0
    ∧ some ((1:ℚ)/2) ≠ some (0:ℚ) := by
  refine ⟨?_, ?_, by norm_num⟩
  · simp [Track.setVolume, mixOtherTrack]
    norm_num
  · simp [effectiveGainSpec, Track.setVolume, mixOtherTrack, mixSoloTrack]

/-- Claim C8 (amended): `setVolume`/`setMuted` do push a gain to a bound
sink immediately, but it is the track-local `muted ? 0 : volume` (with the
volume clamped to [0,1] by `setVolume`), not the §4.3 solo-aware
resolution; the two agree exactly when no track is soloed. -/
theorem setters_push_local_gain (t : Track) (v : ℚ) (m : Bool) (tracks : List Track)
    (hbound : t.gainNode.isSome = true) :
    (t.setVolume v).gainNode = some (if t.muted then 0 else max 0 (min 1 v))
    ∧ (t.setMuted m).gainNode = some (if m then 0 else t.volume)
    ∧ (tracks.any (fun tr => tr.solo) = false → ∀ tr ∈ tracks,
        (if tr.muted then (0:ℚ) else tr.volume) = effectiveGainSpec tracks tr) := by
  refine ⟨?_, ?_, ?_⟩
  · simp [Track.setVolume, hbound]
  · simp [Track.setMuted, hbound]
  · intro hno tr _
    simp [effectiveGainSpec, hno]

/-- Witness for C8 (amended) on `mixOtherTrack` (bound sink) in a
solo-free pair of tracks. -/
theorem setters_push_local_gain_witness :
    mixOtherTrack.gainNode.isSome = true
    ∧ (mixOtherTrack.setMuted true).gainNode = some (if true then 0 else mixOtherTrack.volume)
    ∧ ([mixOtherTrack, silencedTrack].any (fun tr => tr.solo) = false →
        ∀ tr ∈ [mixOtherTrack, silencedTrack],
          (if tr.muted then (0:ℚ) else tr.volume)
            = effectiveGainSpec [mixOtherTrack, silencedTrack] tr) :=
  ⟨rfl,
    (setters_push_local_gain mixOtherTrack 0 true [mixOtherTrack, silencedTrack] rfl).2.1,
    (setters_push_local_gain mixOtherTrack 0 true [mixOtherTrack, silencedTrack] rfl).2.2⟩

/-! ## Claim C3: which tracks the scheduler skips -/

/-- Claim C3 counterexample: `silencedTrack` has canonical effective gain 0
(a foreign solo is active and its own volume is 0), yet `schedulePlayback`
issues a playback command for its clip. -/
theorem schedule_ignores_effective_gain_counterexample :
    effectiveGainSpec engineC3.tracks silencedTrack = 0
    ∧ (engineC3.schedulePlayback 0).activeSources
        = [{ trackId := "track_2", buffer := some bufA, startWhen := 0
             offset := 0, duration := 3 }] := by
  constructor
  · simp [effectiveGainSpec, engineC3, AudioEngine.initial, soloActiveTrack, silencedTrack]
  · simp only [AudioEngine.schedulePlayback, AudioEngine.stopAllSources, scheduleCommands,
      engineC3, AudioEngine.initial, soloActiveTrack, silencedTrack, clipA, bufA,
      List.flatMap_cons, List.flatMap_nil, List.filterMap_cons, List.filterMap_nil]
    norm_num [jsOrQ]

/-- Claim C3 (amended): `schedulePlayback` skips exactly the muted tracks —
every issued command belongs to some unmuted track of the engine; solo
state and volume (hence the resolved effective gain) are not consulted, so
a non-muted track whose effective gain is 0 still gets commands (see the
counterexample). -/
theorem schedule_skips_only_muted (e : AudioEngine) (now : ℚ) (cmd : PlaybackCommand)
    (h : cmd ∈ (e.schedulePlayback now).activeSources) :
    ∃ t ∈ e.tracks, cmd.trackId = t.id ∧ t.muted = false := by
  simp only [AudioEngine.schedulePlayback, AudioEngine.stopAllSources, scheduleCommands] at h
  rw [List.mem_flatMap] at h
  obtain ⟨track, htrack, hmem⟩ := h
  by_cases hm : track.muted = true
  · simp [hm] at hmem
  · refine ⟨track, htrack, ?_, by simpa using hm⟩
    rw [if_neg hm, List.mem_filterMap] at hmem
    obtain ⟨clip, _, heq⟩ := hmem
    split_ifs at heq <;> simp only [Option.some.injEq] at heq <;> rw [← heq]

/-- Witness for C3 (amended): the command issued for `silencedTrack`'s clip
indeed belongs to an unmuted track of `engineC3`. -/
theorem schedule_skips_only_muted_witness :
    ({ trackId := "track_2", buffer := some bufA, startWhen := 0
       offset := 0, duration := 3 } : PlaybackCommand)
      ∈ (engineC3.schedulePlayback 0).activeSources
    ∧ ∃ t ∈ engineC3.tracks,
        ({ trackId := "track_2", buffer := some bufA, startWhen := 0
           offset := 0, duration := 3 } : PlaybackCommand).trackId = t.id
        ∧ t.muted = false :=
  have hmem : ({ trackId := "track_2", buffer := some bufA, startWhen := 0
                 offset := 0, duration := 3 } : PlaybackCommand)
      ∈ (engineC3.schedulePlayback 0).activeSources := by
    simp only [AudioEngine.schedulePlayback, AudioEngine.stopAllSources, scheduleCommands,
      engineC3, AudioEngine.initial, soloActiveTrack, silencedTrack, clipA, bufA,
      List.flatMap_cons, List.flatMap_nil, List.filterMap_cons, List.filterMap_nil]
    norm_num [jsOrQ]
  ⟨hmem, schedule_skips_only_muted engineC3 0 _ hmem⟩

/-! ## Claim C2: mid-clip scheduling -/

/-- Claim C2: a clip already in progress at logical position
`P = now - startTime` is issued with `deviceStart = now`,
`sourceOffset = offset + (P - startTime)` and
`playableDuration = duration - (sourceOffset - offset)`; concretely,
`seek(3)` then `play()` on a clip `startTime=2, offset=0, duration=3`
issues exactly one command with `sourceOffset = 1`, `playableDuration = 2`. -/
theorem schedule_midclip_resume (e : AudioEngine) (now : ℚ) (t : Track) (c : AudioClip)
    (ht : t ∈ e.tracks) (hm : t.muted = false) (hc : c ∈ t.clips)
    (h1 : c.startTime < now - e.startTime)
    (h2 : now - e.startTime < c.startTime + c.duration) :
    ({ trackId := t.id, buffer := c.audioBuffer, startWhen := now
       offset := c.offset + ((now - e.startTime) - c.startTime)
       duration := c.duration - ((c.offset + ((now - e.startTime) - c.startTime)) - c.offset) }
      : PlaybackCommand) ∈ (e.schedulePlayback now).activeSources
    ∧ ((engineC2.seekTo 5 3).play 10).activeSources
        = [{ trackId := "track_1", buffer := some bufA, startWhen := 10
             offset := 1, duration := 2 }] := by
  constructor
  · simp only [AudioEngine.schedulePlayback, AudioEngine.stopAllSources, scheduleCommands,
      List.mem_flatMap, jsOrQ_zero]
    refine ⟨t, ht, ?_⟩
    rw [if_neg (by simp [hm]), List.mem_filterMap]
    refine ⟨c, hc, ?_⟩
    rw [if_neg (not_lt.mpr h2.le)]
    simp only [if_neg (not_le.mpr h1)]
    rw [if_pos (by linarith)]
  · simp only [AudioEngine.seekTo, AudioEngine.play, AudioEngine.init,
      AudioEngine.schedulePlayback, AudioEngine.stopAllSources, AudioEngine.startTimeUpdateTick,
      AudioEngine.emitTimeUpdate, AudioEngine.emitPlayState, scheduleCommands,
      engineC2, AudioEngine.initial, trackC2, clipC2, bufA,
      List.flatMap_cons, List.flatMap_nil]
    norm_num [jsOrQ, List.filterMap_cons]

/-- Witness for C2: the in-progress clip `clipC2` of the playing engine
`engineW2` (epoch 7, device time 10, logical position 3) receives exactly
the command the theorem predicts. -/
theorem schedule_midclip_resume_witness :
    trackC2 ∈ engineW2.tracks ∧ trackC2.muted = false ∧ clipC2 ∈ trackC2.clips
    ∧ clipC2.startTime < 10 - engineW2.startTime
    ∧ 10 - engineW2.startTime < clipC2.startTime + clipC2.duration
    ∧ ({ trackId := trackC2.id, buffer := clipC2.audioBuffer, startWhen := 10
         offset := clipC2.offset + ((10 - engineW2.startTime) - clipC2.startTime)
         duration := clipC2.duration
           - ((clipC2.offset + ((10 - engineW2.startTime) - clipC2.startTime)) - clipC2.offset) }
        : PlaybackCommand) ∈ (engineW2.schedulePlayback 10).activeSources :=
  ⟨by simp [engineW2, AudioEngine.initial], rfl, by simp [trackC2],
    by norm_num [clipC2, engineW2, AudioEngine.initial],
    by norm_num [clipC2, engineW2, AudioEngine.initial],
    (schedule_midclip_resume engineW2 10 trackC2 clipC2
      (by simp [engineW2, AudioEngine.initial]) rfl (by simp [trackC2])
      (by norm_num [clipC2, engineW2, AudioEngine.initial])
      (by norm_num [clipC2, engineW2, AudioEngine.initial])).1⟩

/-! ## Claim C5: transport resume and stop -/

theorem emitTimeUpdate_proj (e : AudioEngine) (t : ℚ) :
    (e.emitTimeUpdate t).isPlaying = e.isPlaying
    ∧ (e.emitTimeUpdate t).isPaused = e.isPaused
    ∧ (e.emitTimeUpdate t).startTime = e.startTime
    ∧ (e.emitTimeUpdate t).pauseTime = e.pauseTime
    ∧ (e.emitTimeUpdate t).currentTime = e.currentTime
    ∧ (e.emitTimeUpdate t).tracks = e.tracks
    ∧ (e.emitTimeUpdate t).activeSources = e.activeSources
    ∧ (e.emitTimeUpdate t).contextReady = e.contextReady
    ∧ (e.emitTimeUpdate t).hasTimeUpdate = e.hasTimeUpdate
    ∧ (e.emitTimeUpdate t).hasPlayStateChange = e.hasPlayStateChange := by
  unfold AudioEngine.emitTimeUpdate
  split <;> simp

theorem emitPlayState_proj (e : AudioEngine) (s : String) :
    (e.emitPlayState s).isPlaying = e.isPlaying
    ∧ (e.emitPlayState s).isPaused = e.isPaused
    ∧ (e.emitPlayState s).startTime = e.startTime
    ∧ (e.emitPlayState s).pauseTime = e.pauseTime
    ∧ (e.emitPlayState s).currentTime = e.currentTime
    ∧ (e.emitPlayState s).tracks = e.tracks
    ∧ (e.emitPlayState s).activeSources = e.activeSources
    ∧ (e.emitPlayState s).contextReady = e.contextReady
    ∧ (e.emitPlayState s).hasTimeUpdate = e.hasTimeUpdate
    ∧ (e.emitPlayState s).hasPlayStateChange = e.hasPlayStateChange := by
  unfold AudioEngine.emitPlayState
  split <;> simp

theorem emitPlayState_events_mono (e : AudioEngine) (s : String) (x : EngineEvent)
    (h : x ∈ e.events) : x ∈ (e.emitPlayState s).events := by
  unfold AudioEngine.emitPlayState
  split <;> simp [h]

/-- Claim C5: `pause()` at device time `d1` followed by `play()` at `d2`
resumes at exactly the frozen position `p = d1 - startTime` — the cursor is
set back to `p` and the new epoch satisfies `d2 - startTime = p` — while
`stop()` from any state zeroes the cursor, leaves the Stopped flags, and
(with a subscriber attached) fires a position notification carrying 0. -/
theorem pause_play_stop_transport (e e2 : AudioEngine) (d1 d2 : ℚ)
    (hp : e.isPlaying = true) (hnp : e.isPaused = false)
    (hpos : 0 < d1 - e.startTime) :
    (((e.pause d1).play d2).currentTime = d1 - e.startTime
     ∧ ((e.pause d1).play d2).isPlaying = true
     ∧ ((e.pause d1).play d2).isPaused = false
     ∧ d2 - ((e.pause d1).play d2).startTime = d1 - e.startTime)
    ∧ (e2.stop.currentTime = 0 ∧ e2.stop.isPlaying = false ∧ e2.stop.isPaused = false
       ∧ (e2.hasTimeUpdate = true → EngineEvent.timeUpdate 0 ∈ e2.stop.events)) := by
  have hpause : e.pause d1
      = (AudioEngine.stopAllSources
          { e with isPaused := true, pauseTime := d1 - e.startTime }).emitPlayState "paused" := by
    unfold AudioEngine.pause
    rw [if_neg (by simp [hp, hnp])]
  have hplay : ∀ x : AudioEngine, x.isPlaying = true → x.isPaused = true →
      (x.play d2).currentTime = x.pauseTime ∧ (x.play d2).isPlaying = true
      ∧ (x.play d2).isPaused = false ∧ (x.play d2).startTime = d2 - x.pauseTime := by
    intro x h1 h2
    by_cases hc : x.contextReady <;>
      by_cases htu : x.hasTimeUpdate <;>
        by_cases hpc : x.hasPlayStateChange <;>
          simp [AudioEngine.play, AudioEngine.init, AudioEngine.schedulePlayback,
            AudioEngine.stopAllSources, AudioEngine.startTimeUpdateTick,
            AudioEngine.emitTimeUpdate, AudioEngine.emitPlayState, h1, h2, hc, htu, hpc]
  constructor
  · have hP1 : (e.pause d1).isPlaying = true := by
      rw [hpause]
      simp [(emitPlayState_proj _ _).1, AudioEngine.stopAllSources, hp]
    have hP2 : (e.pause d1).isPaused = true := by
      rw [hpause]
      simp [(emitPlayState_proj _ _).2.1, AudioEngine.stopAllSources]
    have hPt : (e.pause d1).pauseTime = d1 - e.startTime := by
      rw [hpause]
      simp [(emitPlayState_proj _ _).2.2.2.1, AudioEngine.stopAllSources]
    obtain ⟨ha, hb, hd, hs⟩ := hplay (e.pause d1) hP1 hP2
    refine ⟨by rw [ha, hPt], hb, hd, by rw [hs, hPt]; ring⟩
  · have hstop : e2.stop
        = ((AudioEngine.stopAllSources
            { e2 with
              isPlaying := false, isPaused := false, currentTime := 0, pauseTime := 0
            }).emitTimeUpdate 0).emitPlayState "stopped" := rfl
    refine ⟨?_, ?_, ?_, ?_⟩
    · rw [hstop]
      simp [(emitPlayState_proj _ _).2.2.2.2.1, (emitTimeUpdate_proj _ _).2.2.2.2.1,
        AudioEngine.stopAllSources]
    · rw [hstop]
      simp [(emitPlayState_proj _ _).1, (emitTimeUpdate_proj _ _).1, AudioEngine.stopAllSources]
    · rw [hstop]
      simp [(emitPlayState_proj _ _).2.1, (emitTimeUpdate_proj _ _).2.1,
        AudioEngine.stopAllSources]
    · intro htu
      rw [hstop]
      refine emitPlayState_events_mono _ _ _ ?_
      simp [AudioEngine.emitTimeUpdate, AudioEngine.stopAllSources, htu]


/-- Witness for C5 on a concrete playing engine: pause at device time 2
(position 2), play at device time 5 resumes at 2; stop notifies 0. -/
theorem pause_play_stop_transport_witness :
    enginePlaying.isPlaying = true ∧ enginePlaying.isPaused = false
    ∧ 0 < (2:ℚ) - enginePlaying.startTime
    ∧ ((enginePlaying.pause 2).play 5).currentTime = 2 - enginePlaying.startTime
    ∧ EngineEvent.timeUpdate 0 ∈ enginePlaying.stop.events :=
  ⟨rfl, rfl, by norm_num [enginePlaying, AudioEngine.initial],
    (pause_play_stop_transport enginePlaying enginePlaying 2 5 rfl rfl
      (by norm_num [enginePlaying, AudioEngine.initial])).1.1,
    (pause_play_stop_transport enginePlaying enginePlaying 2 5 rfl rfl
      (by norm_num [enginePlaying, AudioEngine.initial])).2.2.2.2 rfl⟩

/-! ## Claim C7: formatTime monotonicity -/

theorem pad3_data : ∀ n : ℕ, n < 1000 → (padStart (toString n) 3 '0').data
    = [Nat.digitChar (n / 100), Nat.digitChar (n / 10 % 10), Nat.digitChar (n % 10)] := by
  decide

theorem pad2_data : ∀ n : ℕ, n < 10 → (padStart (toString n) 2 '0').data
    = ['0', Nat.digitChar n] := by
  decide

theorem toString_natCast (n : ℕ) : toString ((n : ℤ)) = toString n := rfl

theorem digitChar_mono : ∀ a < 10, ∀ b < 10, a < b → Nat.digitChar a < Nat.digitChar b := by
  decide

theorem natDigitSplit3 (a b : ℕ) (hab : a < b) (hb : b < 1000) :
    a / 100 < b / 100
    ∨ (a / 100 = b / 100
      ∧ (a / 10 % 10 < b / 10 % 10
        ∨ (a / 10 % 10 = b / 10 % 10 ∧ a % 10 < b % 10))) := by
  omega

theorem natComponentSplit (N1 N2 : ℕ) (h : N1 < N2) :
    N1 / 4000 < N2 / 4000
    ∨ (N1 / 4000 = N2 / 4000
      ∧ (N1 / 1000 % 4 < N2 / 1000 % 4
        ∨ (N1 / 1000 % 4 = N2 / 1000 % 4 ∧ N1 % 1000 < N2 % 1000))) := by
  omega

theorem charsOfN_lex (N1 N2 : ℕ) (h : N1 < N2) (h2 : N2 < 3996000) :
    List.Lex (· < ·) (charsOfN N1) (charsOfN N2) := by
  have hb1 : N1 / 4000 + 1 < 1000 := by omega
  have hb2 : N2 / 4000 + 1 < 1000 := by omega
  unfold charsOfN
  rcases natComponentSplit N1 N2 h with hB | ⟨eB, hbeat | ⟨ebeat, htick⟩⟩
  · rcases natDigitSplit3 (N1 / 4000 + 1) (N2 / 4000 + 1) (by omega) hb2 with
      hd | ⟨e1, hd | ⟨e2, hd⟩⟩
    · exact .rel (digitChar_mono _ (by omega) _ (by omega) hd)
    · rw [e1]
      exact .cons (.rel (digitChar_mono _ (by omega) _ (by omega) hd))
    · rw [e1, e2]
      exact .cons (.cons (.rel (digitChar_mono _ (by omega) _ (by omega) hd)))
  · rw [eB]
    exact .cons (.cons (.cons (.cons (.cons
      (.rel (digitChar_mono _ (by omega) _ (by omega) (by omega)))))))
  · rw [eB, ebeat]
    rcases natDigitSplit3 (N1 % 1000) (N2 % 1000) htick (by omega) with
      hd | ⟨e1, hd | ⟨e2, hd⟩⟩
    · exact .cons (.cons (.cons (.cons (.cons (.cons (.cons
        (.rel (digitChar_mono _ (by omega) _ (by omega) hd))))))))
    · rw [e1]
      exact .cons (.cons (.cons (.cons (.cons (.cons (.cons (.cons
        (.rel (digitChar_mono _ (by omega) _ (by omega) hd)))))))))
    · rw [e1, e2]
      exact .cons (.cons (.cons (.cons (.cons (.cons (.cons (.cons (.cons
        (.rel (digitChar_mono _ (by omega) _ (by omega) hd))))))))))

theorem cast_natFloor_of_nonneg (x : ℚ) (hx : 0 ≤ x) : ⌊x⌋ = ((⌊x⌋₊ : ℕ) : ℤ) := by
  rw [← Int.floor_toNat, Int.toNat_of_nonneg (Int.floor_nonneg.mpr hx)]

theorem formatTime_data (tempo s : ℚ) (h0 : 0 ≤ s * (tempo / 60))
    (hub : s * (tempo / 60) < 3996) :
    AudioEngine.formatTime tempo s = ⟨charsOfN ⌊s * (tempo / 60) * 1000⌋₊⟩ := by
  set b : ℚ := s * (tempo / 60) with hbdef
  set N : ℕ := ⌊b * 1000⌋₊ with hNdef
  have hb1000 : (0 : ℚ) ≤ b * 1000 := by positivity
  have hNub : N < 3996000 := by
    rw [hNdef, Nat.floor_lt hb1000]
    push_cast
    linarith
  -- floors of b and b/4 through N
  have hdiv4 : b / 4 = b * 1000 / ((4000 : ℕ) : ℚ) := by push_cast; ring
  have hdiv1 : b = b * 1000 / ((1000 : ℕ) : ℚ) := by push_cast; ring
  have hnf4 : ⌊b / 4⌋₊ = N / 4000 := by
    rw [hdiv4, Nat.floor_div_nat]
  have hnf1 : ⌊b⌋₊ = N / 1000 := by
    conv_lhs => rw [hdiv1]
    rw [Nat.floor_div_nat]
  have hfb4 : ⌊b / 4⌋ = ((N / 4000 : ℕ) : ℤ) := by
    rw [cast_natFloor_of_nonneg _ (by positivity), hnf4]
  have hfb : ⌊b⌋ = ((N / 1000 : ℕ) : ℤ) := by
    rw [cast_natFloor_of_nonneg _ h0, hnf1]
  have hfb1000 : ⌊b * 1000⌋ = (N : ℤ) := by
    rw [cast_natFloor_of_nonneg _ hb1000, hNdef]
  -- JS remainders at nonnegative arguments
  have hmod4 : jsMod b 4 = b - 4 * (⌊b / 4⌋ : ℚ) := by
    unfold jsMod jsTrunc
    rw [if_neg (not_lt.mpr (by positivity : (0:ℚ) ≤ b / 4))]
  have hmod1 : jsMod b 1 = b - (⌊b⌋ : ℚ) := by
    unfold jsMod jsTrunc
    rw [if_neg (not_lt.mpr (by simpa using h0))]
    simp
  -- the three rendered numbers
  have hbars : ⌊b / 4⌋ + 1 = ((N / 4000 + 1 : ℕ) : ℤ) := by
    rw [hfb4]; push_cast; ring
  have hbeats : ⌊jsMod b 4⌋ + 1 = ((N / 1000 % 4 + 1 : ℕ) : ℤ) := by
    rw [hmod4, show (4:ℚ) * (⌊b / 4⌋ : ℚ) = ((4 * ⌊b / 4⌋ : ℤ) : ℚ) by push_cast; ring,
      Int.floor_sub_int, hfb, hfb4]
    push_cast
    omega
  have hticks : ⌊jsMod b 1 * 1000⌋ = ((N % 1000 : ℕ) : ℤ) := by
    rw [hmod1, show (b - (⌊b⌋ : ℚ)) * 1000 = b * 1000 - ((1000 * ⌊b⌋ : ℤ) : ℚ) by
        push_cast; ring,
      Int.floor_sub_int, hfb1000, hfb]
    push_cast
    omega
  have hdata : (AudioEngine.formatTime tempo s).data = charsOfN N := by
    simp only [AudioEngine.formatTime, ← hbdef, hbars, hbeats, hticks,
      toString_natCast, String.data_append]
    rw [pad3_data _ (by omega), pad2_data _ (by omega), pad3_data _ (by omega)]
    simp [charsOfN]
  calc AudioEngine.formatTime tempo s = ⟨(AudioEngine.formatTime tempo s).data⟩ := rfl
    _ = ⟨charsOfN N⟩ := by rw [hdata]

/-- Claim C7 counterexample: monotonicity of the rendered string fails once
the bar number needs four digits: at tempo 120, seconds 1996 renders
`"999:01:000"` and seconds 2000 renders `"1001:01:000"`, and under string
ordering `"1001:01:000" < "999:01:000"`. -/
theorem formatTime_mono_counterexample :
    (1996 : ℚ) ≤ 2000
    ∧ AudioEngine.formatTime 120 1996 = "999:01:000"
    ∧ AudioEngine.formatTime 120 2000 = "1001:01:000"
    ∧ AudioEngine.formatTime 120 2000 < AudioEngine.formatTime 120 1996 := by
  have e1 : AudioEngine.formatTime 120 1996 = "999:01:000" := by
    simp only [AudioEngine.formatTime, jsMod, jsTrunc]
    norm_num
    decide
  have e2 : AudioEngine.formatTime 120 2000 = "1001:01:000" := by
    simp only [AudioEngine.formatTime, jsMod, jsTrunc]
    norm_num
    decide
  have h1 : ("1001:01:000" : String).toList
      = ['1','0','0','1',':','0','1',':','0','0','0'] := rfl
  have h2 : ("999:01:000" : String).toList
      = ['9','9','9',':','0','1',':','0','0','0'] := rfl
  refine ⟨by norm_num, e1, e2, ?_⟩
  rw [e1, e2, String.lt_iff_toList_lt, h1, h2]
  exact List.Lex.rel (by decide)

/-- Claim C7 (amended): `formatTime` is monotonically non-decreasing in
`seconds` (for a fixed tempo in [20,300] and nonnegative seconds) as long
as the rendered bar number still fits in the three padded digits, i.e.
while `totalBeats = seconds * tempo/60 < 3996` (bars ≤ 999); past that
bound the string grows to four bar digits and string ordering breaks (see
the counterexample). -/
theorem formatTime_mono (tempo s1 s2 : ℚ) (h20 : 20 ≤ tempo) (h300 : tempo ≤ 300)
    (h0 : 0 ≤ s1) (h12 : s1 ≤ s2) (hub : s2 * (tempo / 60) < 3996) :
    AudioEngine.formatTime tempo s1 ≤ AudioEngine.formatTime tempo s2 := by
  have htpos : (0 : ℚ) < tempo / 60 := div_pos (by linarith) (by norm_num)
  have hb0 : 0 ≤ s1 * (tempo / 60) := mul_nonneg h0 htpos.le
  have hb12 : s1 * (tempo / 60) ≤ s2 * (tempo / 60) :=
    mul_le_mul_of_nonneg_right h12 htpos.le
  have hub1 : s1 * (tempo / 60) < 3996 := lt_of_le_of_lt hb12 hub
  have hN12 : ⌊s1 * (tempo / 60) * 1000⌋₊ ≤ ⌊s2 * (tempo / 60) * 1000⌋₊ :=
    Nat.floor_mono (mul_le_mul_of_nonneg_right hb12 (by norm_num))
  have hN2 : ⌊s2 * (tempo / 60) * 1000⌋₊ < 3996000 := by
    rw [Nat.floor_lt (mul_nonneg (le_trans hb0 hb12) (by norm_num))]
    push_cast
    nlinarith
  rw [formatTime_data tempo s1 hb0 hub1,
    formatTime_data tempo s2 (le_trans hb0 hb12) hub]
  rcases lt_or_eq_of_le hN12 with hlt | heq
  · refine le_of_lt ?_
    rw [String.lt_iff_toList_lt]
    exact charsOfN_lex _ _ hlt hN2
  · rw [heq]

/-- Witness for C7 (amended) at tempo 120, seconds 0 and 2. -/
theorem formatTime_mono_witness :
    ((20:ℚ) ≤ 120 ∧ (120:ℚ) ≤ 300 ∧ (0:ℚ) ≤ 0 ∧ (0:ℚ) ≤ 2
     ∧ (2:ℚ) * (120 / 60) < 3996)
    ∧ AudioEngine.formatTime 120 0 ≤ AudioEngine.formatTime 120 2 :=
  ⟨⟨by norm_num, by norm_num, le_refl 0, by norm_num, by norm_num⟩,
    formatTime_mono 120 0 2 (by norm_num) (by norm_num) (le_refl 0) (by norm_num)
      (by norm_num)⟩
